import Mathlib

/-!
Verification of `apple_report_downloader.py` (Apple Music Report Downloader).

Shallow embedding: Python dictionaries become either association lists with
Python `dict.update` semantics (HTTP headers, where insertion order matters
for faithfulness) or functions `String → Option CVal` (the configuration
mapping, queried only per key).  The external collaborators — the `requests`
HTTP library, the filesystem and the `jwt` encoder — become explicit
functional parameters; mutation of the process-wide state (the `lru_cache`
token cache and the shared mutable default-argument dictionary) becomes
explicit state passing.  Exceptions become `Except`.
-/

namespace AppleReportDownloader

/-- A configuration value: JSON/config values in the script are strings or
integers (the built-in default `jwt_expire_sec` is the integer 1200, every
other exercised value is a string). -/
inductive CVal where
  | str (s : String)
  | int (n : Int)
deriving DecidableEq, Repr

/-! ## Configurator

`Configurator.__init__` seeds built-in defaults, applies `args`, then calls
`__configure`, which layers the optional JSON file, the environment
variables (for the five required items, uppercased), applies `args` again,
and finally checks that every required item is present, raising `KeyError`
at the first missing one. -/

/-- The built-in defaults set at the top of `Configurator.__init__`. -/
def defaults : String → Option CVal := fun k =>
  if k = "api_base_url" then some (.str "https://musicanalytics.apple.com")
  else if k = "jwt_expire_sec" then some (.int 1200)
  else none

/-- Python dict update `base.update(upd)`, viewed per key: keys of `upd`
override keys of `base`. -/
def dictUpdate (base upd : String → Option CVal) : String → Option CVal :=
  fun k => (upd k).orElse (fun _ => base k)

/-- The list `Configurator.__required_items`, in source order. -/
def requiredItems : List String :=
  ["api_base_url", "issuer_id", "jwt_expire_sec", "key_id", "privkey_path"]

/-- One iteration of the loop in `Configurator.__configure_from_env`: if the
uppercased item name is bound in the environment, bind the item to that
string value. -/
def setFromEnv (env : String → Option String) (cfg : String → Option CVal)
    (item : String) : String → Option CVal :=
  match env item.toUpper with
  | some v => fun k => if k = item then some (.str v) else cfg k
  | none => cfg

/-- Embedding of `Configurator.__configure_from_env`: the loop over the required items. -/
def configure_from_env (env : String → Option String)
    (cfg : String → Option CVal) : String → Option CVal :=
  requiredItems.foldl (setFromEnv env) cfg

/-- The configuration dictionary as it stands when the validation loop at the
end of `Configurator.__configure` runs: defaults, updated with `args`
(in `__init__`), updated with the parsed JSON file if one was given, then
from the environment, then with `args` once more. -/
def merged (file : Option (String → Option CVal)) (env : String → Option String)
    (args : String → Option CVal) : String → Option CVal :=
  let c1 := dictUpdate defaults args
  let c2 := match file with
    | some f => dictUpdate c1 f
    | none => c1
  let c3 := configure_from_env env c2
  dictUpdate c3 args

/-- Embedding of `Configurator.__init__` followed by `__configure`: produce the resolved
configuration, or the `KeyError` message raised at the first required item
missing from the merged dictionary. -/
def configure (file : Option (String → Option CVal))
    (env : String → Option String) (args : String → Option CVal) :
    Except String (String → Option CVal) :=
  match requiredItems.find? (fun item => ((merged file env args) item).isNone) with
  | some item => .error ("Missing configuration item: " ++ item)
  | none => .ok (merged file env args)

/-- The resolution order as the specification states it, per key:
explicit override, else environment (uppercased name), else file, else
built-in default.  Stated from the spec for comparison with `merged`,
which is translated from the source. -/
def specPrecedence (file : Option (String → Option CVal))
    (env : String → Option String) (args : String → Option CVal)
    (k : String) : Option CVal :=
  match args k with
  | some v => some v
  | none =>
    match env k.toUpper with
    | some e => some (.str e)
    | none =>
      match file with
      | some f =>
        match f k with
        | some v => some v
        | none => defaults k
      | none => defaults k

/-! ## AppleAPI

`AppleAPI.__init__` stores five settings.  `__generate_jwt_token` is wrapped
in `functools.lru_cache(1)` on a nullary method, i.e. a process-lifetime
single-slot cache: the first call computes and stores, every later call on
the same instance returns the stored result without recomputation.  The
`jwt.encode` call and the `requests` library are external collaborators and
appear as abstract functional parameters. -/

/-- The five settings stored by `AppleAPI.__init__`. -/
structure ApiConfig where
  privkey_path : String
  key_id : String
  issuer_id : String
  jwt_expire_sec : Int
  api_base_url : String
deriving DecidableEq, Repr

/-- The header dictionary built in `__generate_jwt_token`. -/
structure JwtHeader where
  alg : String
  kid : String
  typ : String
deriving DecidableEq, Repr

/-- The payload dictionary built in `__generate_jwt_token`. -/
structure JwtPayload where
  iss : String
  exp : Int
  aud : String
deriving DecidableEq, Repr

/-- The token as handed to `jwt.encode(payload=..., key=..., algorithm="ES256",
headers=...)`: the encoder is external, so the token is modelled by the exact
inputs it signs and encodes. -/
structure Jwt where
  headers : JwtHeader
  payload : JwtPayload
  key : String
  algorithm : String
deriving DecidableEq, Repr

/-- Embedding of `AppleAPI.__generate_jwt_token` under `lru_cache(1)`, with the cache slot
passed explicitly.  `t` is the value of `time.time()` at the call and
`readKey` is the filesystem read of the private key file.  On a hit the
cached token is returned unchanged; on a miss the token is computed from the
call-time `t` and stored. -/
def generate_jwt_token (cfg : ApiConfig) (readKey : String → String) (t : Int) :
    Option Jwt → Jwt × Option Jwt
  | some tok => (tok, some tok)
  | none =>
    let expiration := t + cfg.jwt_expire_sec
    let headers : JwtHeader := { alg := "ES256", kid := cfg.key_id, typ := "JWT" }
    let payload : JwtPayload :=
      { iss := cfg.issuer_id, exp := expiration, aud := "appstoreconnect-v1" }
    let private_key := readKey cfg.privkey_path
    let token : Jwt :=
      { headers := headers, payload := payload, key := private_key,
        algorithm := "ES256" }
    (token, some token)

/-- A sequence of calls to the cached `__generate_jwt_token` at the given
times, on one instance, threading the cache slot; returns the tokens each
call observed. -/
def callTokenSeq (cfg : ApiConfig) (readKey : String → String) :
    List Int → Option Jwt → List Jwt
  | [], _ => []
  | t :: ts, cache =>
    let r := generate_jwt_token cfg readKey t cache
    r.1 :: callTokenSeq cfg readKey ts r.2

/-- An HTTP request as assembled by `__send_http_request`: the verb, the URL,
the optional body, the header dictionary put into the request kwargs, and the
`verify` flag. -/
structure HttpRequest where
  verb : String
  url : String
  body : Option String
  headers : List (String × String)
  verify : Bool
deriving DecidableEq, Repr

/-- The `(r.status_code, r.headers, r.text)` triple returned by
`__send_http_request`. -/
structure HttpTriple where
  status : Int
  respHeaders : List (String × String)
  text : String
deriving DecidableEq, Repr

/-- The external collaborators of `AppleAPI`: the `requests` library (one
response per issued request), the private-key file read, and `jwt.encode`
restricted to the inputs the script passes it. -/
structure ApiEnv where
  net : HttpRequest → HttpTriple
  readKey : String → String
  enc : Jwt → String

/-- The process state mutated by `AppleAPI` calls: the `lru_cache(1)` slot of
`__generate_jwt_token`, and the shared dictionary that is the default value
of the `headers` parameter of `__send_signed_http_request` (a single object
created at function definition time and reused by every call that omits the
argument). -/
structure ApiState where
  tokenCache : Option Jwt
  defaultHeaders : List (String × String)

/-- Python dict update with a one-entry dict, on a dict kept as an ordered association list:
an existing key keeps its position and gets the new value, a new key is
appended. -/
def dictSet : List (String × String) → String → String → List (String × String)
  | [], k, v => [(k, v)]
  | (k0, v0) :: rest, k, v =>
    if k0 = k then (k, v) :: rest else (k0, v0) :: dictSet rest k v

/-- The verbs accepted by the dispatch in `__send_http_request`. -/
def httpVerbs : List String := ["delete", "get", "head", "patch", "post", "put"]

/-- The request assembled from the arguments of `__send_http_request`: the
request kwargs (`verify`, the body when given, the headers) together with
the verb and URL of the dispatched `requests` call. -/
def httpReq (verb url : String) (body : Option String)
    (headers : List (String × String)) (verify_ssl : Bool) : HttpRequest :=
  { verb := verb, url := url, body := body, headers := headers,
    verify := verify_ssl }

/-- Embedding of `AppleAPI.__send_http_request`: for a recognised verb, issue exactly one
request (returned in the singleton trace) and hand back the response triple
unchanged; for any other verb raise `ValueError`. -/
def send_http_request (net : HttpRequest → HttpTriple) (verb url : String)
    (body : Option String) (headers : List (String × String))
    (verify_ssl : Bool) : Except String (List HttpRequest × HttpTriple) :=
  if verb ∈ httpVerbs then
    let req : HttpRequest := httpReq verb url body headers verify_ssl
    .ok ([req], net req)
  else
    .error "Invalid HTTP verb."

/-- Embedding of `AppleAPI.__send_signed_http_request`: resolve the `headers` argument
(`none` models a call that omits it, which picks up the shared default
dictionary), obtain a token from the cached generator, mutate the header
dictionary in place with `headers.update({"Authorization": f"Bearer {token}"})`,
then delegate to `__send_http_request`.  Returns the new process state, the
header dictionary as the caller sees it after the call (the in-place
mutation), and the result. -/
def send_signed_http_request (cfg : ApiConfig) (env : ApiEnv) (st : ApiState)
    (t : Int) (verb url : String) (body : Option String)
    (headersArg : Option (List (String × String))) (verify_ssl : Bool) :
    ApiState × List (String × String) ×
      Except String (List HttpRequest × HttpTriple) :=
  let headers0 := headersArg.getD st.defaultHeaders
  let r := generate_jwt_token cfg env.readKey t st.tokenCache
  let bearer := "Bearer " ++ env.enc r.1
  let headers1 := dictSet headers0 "Authorization" bearer
  let newDefault := if headersArg.isNone then headers1 else st.defaultHeaders
  let resp := send_http_request env.net verb url body headers1 verify_ssl
  ({ tokenCache := r.2, defaultHeaders := newDefault }, headers1, resp)

/-- Embedding of `AppleAPI.request_in_review_report`: build the URL from the base URL and
the date-parameterized path, and make the signed GET (omitting the optional
arguments, hence body `None`, the shared default headers dictionary, and SSL
verification on). -/
def request_in_review_report (cfg : ApiConfig) (env : ApiEnv) (st : ApiState)
    (t : Int) (rptg_day : String) :
    ApiState × Except String (List HttpRequest × HttpTriple) :=
  let path_part := "/reports/in-review/v1?rptg_date=" ++ rptg_day
  let report_url := cfg.api_base_url ++ path_part
  let r := send_signed_http_request cfg env st t "get" report_url none none true
  (r.1, r.2.2)

/-! ## Output layer and entry point -/

/-- Embedding of `OuptutDataLayer.__write_file`, modelled as the (file name, content) pair
the process writes. -/
def write_file (file_name content : String) : String × String :=
  (file_name, content)

/-- Embedding of `OuptutDataLayer.write_in_review_report`. -/
def write_in_review_report (rprt_date body : String) : String × String :=
  write_file ("in-review-" ++ rprt_date ++ ".tsv") body

/-- The tail of `__main__` for the in-review operation: make the request; on
status 200 write the report file (the `.ok` lists the files written), on any
other status raise `RuntimeError("API returned an HTTP %s." % results[0])`
without writing anything (an `.error` writes no files). -/
def main_get_in_review (cfg : ApiConfig) (env : ApiEnv) (st : ApiState)
    (t : Int) (d : String) :
    ApiState × Except String (List (String × String)) :=
  let r := request_in_review_report cfg env st t d
  match r.2 with
  | .error e => (r.1, .error e)
  | .ok resp =>
    if resp.2.status = 200 then
      (r.1, .ok [write_in_review_report d resp.2.text])
    else
      (r.1, .error ("API returned an HTTP " ++ toString resp.2.status ++ "."))

/-! ## CLI dispatch

The `__main__` block counts requested operations with
`if args.get_in_review is not False: operation_ct += 1` and exits with
status 1 when the count is not exactly one.  `--get-in-review` is declared
with `type=str` and no default, so argparse binds it to `None` when the flag
is absent and to a string when present.  Python values are modelled so that
the `is not False` comparison is a real test. -/

/-- The Python values `args.get_in_review` ranges over in the comparison
`args.get_in_review is not False`: `None`, `False`, or a string. -/
inductive PyVal where
  | pynone
  | pyfalse
  | pystr (s : String)
deriving DecidableEq, Repr

/-- The guard `v is not False`. -/
def isNotFalse : PyVal → Bool
  | .pyfalse => false
  | _ => true

/-- What argparse produces for `--get-in-review` (declared `type=str`, no
default): `None` when the flag is absent, the given string when present. -/
def parse_get_in_review : Option String → PyVal
  | none => .pynone
  | some d => .pystr d

/-- The observable outcome of the dispatch prologue of `__main__`. -/
inductive CliOutcome where
  | usageExit1
  | runInReview (rptg_day : PyVal)
  | noOp
deriving DecidableEq, Repr

/-- The dispatch prologue of `__main__`: count operations via the
`is not False` test, exit with status 1 and a usage message when the count
is not one, otherwise proceed — re-testing `is not False` — to the API call
with `args.get_in_review` as the reporting day. -/
def main_dispatch (get_in_review : PyVal) : CliOutcome :=
  let operation_ct : Nat := if isNotFalse get_in_review then 1 else 0
  if operation_ct > 1 ∨ operation_ct < 1 then .usageExit1
  else if isNotFalse get_in_review then .runInReview get_in_review
  else .noOp

/-! ## Concrete instances used by witnesses and counterexamples -/

/-- An environment binding none of the variables. -/
def wEnvNone : String → Option String := fun _ => none

/-- An environment binding every variable to "v". -/
def wEnvAll : String → Option String := fun _ => some "v"

/-- An empty override dictionary. -/
def wArgsNone : String → Option CVal := fun _ => none

/-- Overrides that set `key_id`. -/
def wArgsKey : String → Option CVal := fun k =>
  if k = "key_id" then some (.str "argk") else none

/-- An environment that sets `KEY_ID`. -/
def wEnvKey : String → Option String := fun s =>
  if s = "KEY_ID" then some "envk" else none

/-- A config file that sets `key_id`. -/
def wFileKey : Option (String → Option CVal) :=
  some (fun k => if k = "key_id" then some (.str "filek") else none)

/-- Overrides giving every key the configurator does not default, with
`key_id` bound to the empty string. -/
def wArgsEmptyKey : String → Option CVal := fun k =>
  if k = "issuer_id" then some (.str "i")
  else if k = "key_id" then some (.str "")
  else if k = "privkey_path" then some (.str "p")
  else none

/-- A concrete `AppleAPI` configuration. -/
def wCfg : ApiConfig :=
  { privkey_path := "key.p8", key_id := "K1", issuer_id := "I1",
    jwt_expire_sec := 1200, api_base_url := "https://musicanalytics.apple.com" }

/-- A stub collaborator set whose API answers 404 to everything. -/
def wEnv404 : ApiEnv :=
  { net := fun _ => { status := 404, respHeaders := [], text := "nope" },
    readKey := fun _ => "PEM", enc := fun _ => "tok" }

/-- A stub collaborator set whose API answers 200 with a fixed TSV body. -/
def wEnv200 : ApiEnv :=
  { net := fun _ => { status := 200, respHeaders := [], text := "a\tb\tc\n1\t2\t3\n" },
    readKey := fun _ => "PEM", enc := fun _ => "tok" }

/-- A fresh process state: empty cache slot, shared default dictionary still
empty. -/
def wSt : ApiState := { tokenCache := none, defaultHeaders := [] }

/-- A concrete GET request used by witnesses. -/
def wReq404 : HttpRequest :=
  httpReq "get" "https://musicanalytics.apple.com/x" none [] true

theorem setFromEnv_ne (env : String → Option String)
    (cfg : String → Option CVal) (item k : String) (h : k ≠ item) :
    setFromEnv env cfg item k = cfg k := by
  unfold setFromEnv
  cases env item.toUpper with
  | none => rfl
  | some v => simp [h]

theorem setFromEnv_self (env : String → Option String)
    (cfg : String → Option CVal) (item : String) :
    setFromEnv env cfg item item =
      match env item.toUpper with
      | some v => some (.str v)
      | none => cfg item := by
  unfold setFromEnv
  cases env item.toUpper with
  | none => rfl
  | some v => simp

/-- On a required item, the environment pass binds it exactly when the
uppercased name is in the environment, and leaves it alone otherwise. -/
theorem configure_from_env_at (env : String → Option String)
    (cfg : String → Option CVal) (k : String) (hk : k ∈ requiredItems) :
    configure_from_env env cfg k =
      match env k.toUpper with
      | some v => some (.str v)
      | none => cfg k := by
  simp only [requiredItems, List.mem_cons, List.not_mem_nil, or_false] at hk
  unfold configure_from_env requiredItems
  simp only [List.foldl]
  rcases hk with h | h | h | h | h <;> subst h
  · rw [setFromEnv_ne env _ "privkey_path" "api_base_url" (by decide),
      setFromEnv_ne env _ "key_id" "api_base_url" (by decide),
      setFromEnv_ne env _ "jwt_expire_sec" "api_base_url" (by decide),
      setFromEnv_ne env _ "issuer_id" "api_base_url" (by decide),
      setFromEnv_self]
  · rw [setFromEnv_ne env _ "privkey_path" "issuer_id" (by decide),
      setFromEnv_ne env _ "key_id" "issuer_id" (by decide),
      setFromEnv_ne env _ "jwt_expire_sec" "issuer_id" (by decide),
      setFromEnv_self,
      setFromEnv_ne env cfg "api_base_url" "issuer_id" (by decide)]
  · rw [setFromEnv_ne env _ "privkey_path" "jwt_expire_sec" (by decide),
      setFromEnv_ne env _ "key_id" "jwt_expire_sec" (by decide),
      setFromEnv_self,
      setFromEnv_ne env _ "issuer_id" "jwt_expire_sec" (by decide),
      setFromEnv_ne env cfg "api_base_url" "jwt_expire_sec" (by decide)]
  · rw [setFromEnv_ne env _ "privkey_path" "key_id" (by decide),
      setFromEnv_self,
      setFromEnv_ne env _ "jwt_expire_sec" "key_id" (by decide),
      setFromEnv_ne env _ "issuer_id" "key_id" (by decide),
      setFromEnv_ne env cfg "api_base_url" "key_id" (by decide)]
  · rw [setFromEnv_self,
      setFromEnv_ne env _ "key_id" "privkey_path" (by decide),
      setFromEnv_ne env _ "jwt_expire_sec" "privkey_path" (by decide),
      setFromEnv_ne env _ "issuer_id" "privkey_path" (by decide),
      setFromEnv_ne env cfg "api_base_url" "privkey_path" (by decide)]

/-- Validation never edits the dictionary: a successful `configure` returns
exactly the merged dictionary. -/
theorem configure_ok_eq (file : Option (String → Option CVal))
    (env : String → Option String) (args : String → Option CVal)
    (cfg : String → Option CVal) (h : configure file env args = .ok cfg) :
    cfg = merged file env args := by
  unfold configure at h
  cases hf : requiredItems.find? (fun item => ((merged file env args) item).isNone) with
  | some item => rw [hf] at h; cases h
  | none => rw [hf] at h; exact (Except.ok.inj h).symm

theorem merged_eq_specPrecedence (file : Option (String → Option CVal))
    (env : String → Option String) (args : String → Option CVal)
    (k : String) (hk : k ∈ requiredItems) :
    merged file env args k = specPrecedence file env args k := by
  unfold merged specPrecedence
  cases hargs : args k with
  | some v => simp [dictUpdate, hargs]
  | none =>
    simp only [dictUpdate, hargs, Option.orElse]
    rw [configure_from_env_at env _ k hk]
    cases henv : env k.toUpper with
    | some e => rfl
    | none =>
      cases file with
      | none => simp [dictUpdate, hargs]
      | some f =>
        cases hf : f k with
        | some v => simp [dictUpdate, hargs, hf]
        | none => simp [dictUpdate, hargs, hf]

/-- C4: for every key among the five required settings and every combination
of sources, the resolved configuration maps the key by the precedence
explicit override > environment > file > built-in default: `merged`
(translated from the source) agrees with `specPrecedence` (stated from the
spec) on every required key. -/
theorem config_precedence (file : Option (String → Option CVal))
    (env : String → Option String) (args : String → Option CVal)
    (k : String) (hk : k ∈ requiredItems) :
    merged file env args k = specPrecedence file env args k :=
  merged_eq_specPrecedence file env args k hk

/-- Witness for `config_precedence`: `key_id` with all three sources set; the
explicit override wins. -/
theorem config_precedence_witness :
    "key_id" ∈ requiredItems ∧
      merged wFileKey wEnvKey wArgsKey "key_id"
        = specPrecedence wFileKey wEnvKey wArgsKey "key_id" :=
  ⟨by decide, config_precedence wFileKey wEnvKey wArgsKey "key_id" (by decide)⟩

/-- C5: when some required key is absent from the merged configuration,
resolution fails with a `KeyError` naming a missing required key; when all
five required keys are present, resolution succeeds with the merged
configuration. -/
theorem config_validation
    (f1 : Option (String → Option CVal)) (e1 : String → Option String)
    (a1 : String → Option CVal)
    (f2 : Option (String → Option CVal)) (e2 : String → Option String)
    (a2 : String → Option CVal)
    (k0 : String) (hk0 : k0 ∈ requiredItems)
    (h1 : merged f1 e1 a1 k0 = none)
    (h2 : ∀ k ∈ requiredItems, ((merged f2 e2 a2) k).isSome) :
    (∃ k ∈ requiredItems, merged f1 e1 a1 k = none ∧
        configure f1 e1 a1 = .error ("Missing configuration item: " ++ k)) ∧
    configure f2 e2 a2 = .ok (merged f2 e2 a2) := by
  constructor
  · cases hf : requiredItems.find? (fun item => ((merged f1 e1 a1) item).isNone) with
    | none =>
      exfalso
      have := List.find?_eq_none.mp hf k0 hk0
      simp [h1] at this
    | some item =>
      refine ⟨item, List.mem_of_find?_eq_some hf, ?_, ?_⟩
      · have := List.find?_some hf
        simpa [Option.isNone_iff_eq_none] using this
      · unfold configure
        rw [hf]
  · unfold configure
    cases hf : requiredItems.find? (fun item => ((merged f2 e2 a2) item).isNone) with
    | none => rfl
    | some item =>
      exfalso
      have hmem := List.mem_of_find?_eq_some hf
      have hp := List.find?_some hf
      have hs := h2 item hmem
      rw [Option.isNone_iff_eq_none] at hp
      simp [hp] at hs

/-- Witness for `config_validation`: with no file, empty environment and no
overrides, `issuer_id` is missing and resolution fails naming a missing key;
with every environment variable bound, resolution succeeds. -/
theorem config_validation_witness :
    (∃ k ∈ requiredItems, merged none wEnvNone wArgsNone k = none ∧
        configure none wEnvNone wArgsNone
          = .error ("Missing configuration item: " ++ k)) ∧
    configure none wEnvAll wArgsNone = .ok (merged none wEnvAll wArgsNone) :=
  config_validation none wEnvNone wArgsNone none wEnvAll wArgsNone
    "issuer_id" (by decide) (by decide) (by decide)

/-- C6 counterexample: resolution accepts a configuration whose required
`key_id` is bound to the empty string — the validation loop checks presence
only, never non-emptiness, so the claimed rejection does not happen. -/
theorem config_accepts_empty_value :
    (configure none wEnvNone wArgsEmptyKey).toOption.map (fun c => c "key_id")
      = some (some (CVal.str "")) := by
  rfl

/-- C6 (amended): every resolved configuration that resolution accepts has
all five required keys present; values are not checked for non-emptiness, so
an empty value is accepted. -/
theorem config_accepted_all_present (file : Option (String → Option CVal))
    (env : String → Option String) (args : String → Option CVal)
    (cfg : String → Option CVal) (h : configure file env args = .ok cfg) :
    ∀ k ∈ requiredItems, (cfg k).isSome := by
  have hc := configure_ok_eq file env args cfg h
  subst hc
  intro k hk
  unfold configure at h
  cases hf : requiredItems.find? (fun item => ((merged file env args) item).isNone) with
  | some item => rw [hf] at h; simp at h
  | none =>
    have hnone := List.find?_eq_none.mp hf k hk
    cases hm : merged file env args k with
    | none => simp [hm] at hnone
    | some v => simp

/-- Witness for `config_accepted_all_present`: the all-environment
resolution is accepted and has `key_id` present. -/
theorem config_accepted_all_present_witness :
    configure none wEnvAll wArgsNone = .ok (merged none wEnvAll wArgsNone) ∧
      ((merged none wEnvAll wArgsNone) "key_id").isSome :=
  ⟨by rfl, config_accepted_all_present none wEnvAll wArgsNone
      (merged none wEnvAll wArgsNone) (by rfl) "key_id" (by decide)⟩

/-- Looking up the key just written by a dict update finds the new value. -/
theorem lookup_dictSet (l : List (String × String)) (k v : String) :
    (dictSet l k v).lookup k = some v := by
  induction l with
  | nil => simp [dictSet, List.lookup]
  | cons p rest ih =>
    obtain ⟨k0, v0⟩ := p
    by_cases h : k0 = k
    · simp [dictSet, h, List.lookup]
    · simp only [dictSet, if_neg h, List.lookup]
      have hbe : (k == k0) = false := beq_eq_false_iff_ne.mpr (Ne.symm h)
      rw [hbe]
      exact ih

/-- With the cache slot filled, every call returns the cached token. -/
theorem callTokenSeq_cached (cfg : ApiConfig) (readKey : String → String)
    (tok : Jwt) (ts : List Int) :
    callTokenSeq cfg readKey ts (some tok) = List.replicate ts.length tok := by
  induction ts with
  | nil => rfl
  | cons t ts ih =>
    simp [callTokenSeq, generate_jwt_token, ih, List.replicate_succ]

/-- C2: a token issued at time `t` from configured `key_id`, `issuer_id` and
lifetime has header exactly `{alg: ES256, kid: key_id, typ: JWT}` and
payload exactly `{iss: issuer_id, exp: t + lifetime, aud:
appstoreconnect-v1}`; in the integer time model the expiration equals
issuance time plus lifetime exactly, hence within the 1-second tolerance. -/
theorem token_header_payload (cfg : ApiConfig) (readKey : String → String)
    (t : Int) :
    (generate_jwt_token cfg readKey t none).1.headers
        = { alg := "ES256", kid := cfg.key_id, typ := "JWT" } ∧
    (generate_jwt_token cfg readKey t none).1.payload
        = { iss := cfg.issuer_id, exp := t + cfg.jwt_expire_sec,
            aud := "appstoreconnect-v1" } :=
  ⟨rfl, rfl⟩

/-- C3: in any sequence of two or more calls to the cached token generator,
every call after the first returns the very token of the first call — the
later call times `rest` are unconstrained, so this also covers calls made
after the configured lifetime has elapsed; the cache is never invalidated
by expiry. -/
theorem token_cache_never_invalidated (cfg : ApiConfig)
    (readKey : String → String) (t : Int) (rest : List Int) :
    callTokenSeq cfg readKey (t :: rest) none
      = List.replicate (rest.length + 1)
          ((generate_jwt_token cfg readKey t none).1) := by
  simp [callTokenSeq, callTokenSeq_cached, List.replicate_succ,
    generate_jwt_token]

/-- C1: requesting the in-review report for date `d` issues exactly one
HTTP GET (the trace is a singleton) whose URL is the configured base URL
concatenated with the in-review path and the date, whose headers carry
`Authorization: Bearer <token>` for the issued token, and returns the
status/headers/body triple of the response unmodified. -/
theorem in_review_request (cfg : ApiConfig) (env : ApiEnv) (st : ApiState)
    (t : Int) (d : String) :
    ∃ req : HttpRequest,
      (request_in_review_report cfg env st t d).2 = .ok ([req], env.net req) ∧
      req.verb = "get" ∧
      req.url = cfg.api_base_url ++ ("/reports/in-review/v1?rptg_date=" ++ d) ∧
      req.headers.lookup "Authorization"
        = some ("Bearer "
            ++ env.enc (generate_jwt_token cfg env.readKey t st.tokenCache).1) := by
  refine ⟨{ verb := "get"
            url := cfg.api_base_url ++ ("/reports/in-review/v1?rptg_date=" ++ d)
            body := none
            headers := dictSet st.defaultHeaders "Authorization"
              ("Bearer "
                ++ env.enc (generate_jwt_token cfg env.readKey t st.tokenCache).1)
            verify := true }, ?_, rfl, rfl, lookup_dictSet _ _ _⟩
  rfl

/-- C8: for every recognised verb and every response — in particular one
whose status is not 2xx — the HTTP layer raises nothing and returns the
status, headers and body exactly as the response carries them, and the
signed layer passes that result through unchanged. -/
theorem non_2xx_returned_unchanged (cfg : ApiConfig) (env : ApiEnv)
    (st : ApiState) (t : Int) (verb url : String) (body : Option String)
    (headers : List (String × String))
    (headersArg : Option (List (String × String))) (verify_ssl : Bool)
    (hverb : verb ∈ httpVerbs)
    ( _hstatus : ¬(200 ≤ (env.net (httpReq verb url body headers verify_ssl)).status ∧
      (env.net (httpReq verb url body headers verify_ssl)).status < 300)) :
    send_http_request env.net verb url body headers verify_ssl
      = .ok ([httpReq verb url body headers verify_ssl],
          env.net (httpReq verb url body headers verify_ssl)) ∧
    (send_signed_http_request cfg env st t verb url body headersArg
        verify_ssl).2.2
      = send_http_request env.net verb url body
          (dictSet (headersArg.getD st.defaultHeaders) "Authorization"
            ("Bearer "
              ++ env.enc (generate_jwt_token cfg env.readKey t st.tokenCache).1))
          verify_ssl := by
  exact ⟨by simp [send_http_request, hverb], rfl⟩

/-- Witness for `non_2xx_returned_unchanged`: the stub 404 API response is
returned unchanged. -/
theorem non_2xx_returned_unchanged_witness :
    ("get" ∈ httpVerbs ∧
      ¬(200 ≤ (wEnv404.net wReq404).status ∧ (wEnv404.net wReq404).status < 300)) ∧
    (send_http_request wEnv404.net "get" "https://musicanalytics.apple.com/x"
        none [] true = .ok ([wReq404], wEnv404.net wReq404) ∧
      (send_signed_http_request wCfg wEnv404 wSt 0 "get"
          "https://musicanalytics.apple.com/x" none none true).2.2
        = send_http_request wEnv404.net "get"
            "https://musicanalytics.apple.com/x" none
            (dictSet ((none : Option (List (String × String))).getD
                wSt.defaultHeaders) "Authorization"
              ("Bearer " ++ wEnv404.enc
                (generate_jwt_token wCfg wEnv404.readKey 0 wSt.tokenCache).1))
            true) :=
  ⟨⟨by decide, by decide⟩,
    non_2xx_returned_unchanged wCfg wEnv404 wSt 0 "get"
      "https://musicanalytics.apple.com/x" none [] none true
      (by decide) (by decide)⟩

/-- C9: with a stub API answering status `s ≠ 200` to everything, the
end-to-end in-review flow terminates with a fatal error whose message
contains the literal status code and writes no file (the error outcome
carries an empty write list); with a stub API answering 200 with a fixed
body, it writes exactly `in-review-<date>.tsv` holding that body
verbatim. -/
theorem main_status_dispatch (cfg : ApiConfig) (env4 env2 : ApiEnv)
    (st4 st2 : ApiState) (t4 t2 : Int) (d : String) (s : Int) (hs : s ≠ 200)
    (h4 : ∀ q, (env4.net q).status = s)
    (rh : List (String × String)) (body : String)
    (h2 : ∀ q, env2.net q = { status := 200, respHeaders := rh, text := body }) :
    (main_get_in_review cfg env4 st4 t4 d).2
        = .error ("API returned an HTTP " ++ toString s ++ ".") ∧
    (main_get_in_review cfg env2 st2 t2 d).2
        = .ok [("in-review-" ++ d ++ ".tsv", body)] := by
  constructor
  · simp [main_get_in_review, request_in_review_report,
      send_signed_http_request, send_http_request, httpVerbs, h4, hs]
  · simp [main_get_in_review, request_in_review_report,
      send_signed_http_request, send_http_request, httpVerbs, h2,
      write_in_review_report, write_file]

/-- Witness for `main_status_dispatch`: the 404 stub aborts with a message
containing 404 and writes nothing; the 200 stub writes the dated TSV with
the stub body. -/
theorem main_status_dispatch_witness :
    (main_get_in_review wCfg wEnv404 wSt 0 "2022-11-10").2
        = .error ("API returned an HTTP " ++ toString (404 : Int) ++ ".") ∧
    (main_get_in_review wCfg wEnv200 wSt 0 "2022-11-10").2
        = .ok [("in-review-" ++ "2022-11-10" ++ ".tsv", "a\tb\tc\n1\t2\t3\n")] :=
  main_status_dispatch wCfg wEnv404 wEnv200 wSt wSt 0 0 "2022-11-10" 404
    (by decide) (fun _ => rfl) [] "a\tb\tc\n1\t2\t3\n" (fun _ => rfl)

/-- C7 (code evaluated at the failing input): `--get-in-review` is declared
with `type=str` and no default, so argparse binds it to `None` when absent;
`None is not False` holds, the operation count is 1, the usage check cannot
fire, and the program proceeds to the API call with reporting day `None`
instead of printing usage and exiting with status 1 before any network
call. -/
theorem main_dispatch_zero_flags_proceeds :
    main_dispatch (parse_get_in_review none) = .runInReview .pynone ∧
      main_dispatch (parse_get_in_review none) ≠ .usageExit1 := by
  exact ⟨rfl, by decide⟩

/-- C10: the signed-request primitive mutates the header dictionary it was
handed — caller-provided or the shared default — by inserting
`Authorization` before the request goes out: the request is sent with the
mutated dictionary; a call that omits the argument leaves the shared
default dictionary mutated, and the next omitting call starts from that
mutated dictionary. -/
theorem signed_request_mutates_headers (cfg : ApiConfig) (env : ApiEnv)
    (st : ApiState) (t t2 : Int) (verb url verb2 url2 : String)
    (body body2 : Option String) (vs vs2 : Bool)
    (callerHeaders : List (String × String)) :
    (let bearer := "Bearer "
        ++ env.enc (generate_jwt_token cfg env.readKey t st.tokenCache).1
     let rp := send_signed_http_request cfg env st t verb url body
        (some callerHeaders) vs
     rp.2.1 = dictSet callerHeaders "Authorization" bearer ∧
       rp.2.2 = send_http_request env.net verb url body
          (dictSet callerHeaders "Authorization" bearer) vs ∧
       rp.1.defaultHeaders = st.defaultHeaders) ∧
    (let bearer := "Bearer "
        ++ env.enc (generate_jwt_token cfg env.readKey t st.tokenCache).1
     let r1 := send_signed_http_request cfg env st t verb url body none vs
     let bearer2 := "Bearer "
        ++ env.enc (generate_jwt_token cfg env.readKey t2 r1.1.tokenCache).1
     let r2 := send_signed_http_request cfg env r1.1 t2 verb2 url2 body2
        none vs2
     r1.1.defaultHeaders = dictSet st.defaultHeaders "Authorization" bearer ∧
       r1.2.2 = send_http_request env.net verb url body
          (dictSet st.defaultHeaders "Authorization" bearer) vs ∧
       r2.2.1 = dictSet (dictSet st.defaultHeaders "Authorization" bearer)
          "Authorization" bearer2) :=
  ⟨⟨rfl, rfl, rfl⟩, ⟨rfl, rfl, rfl⟩⟩

end AppleReportDownloader
